import Mathlib

/-!
# Verification of the `tally` process-timing utility

Shallow embedding of `src/main.rs` (the `tally` program): child-launch
failure translation, exit-code computation, metric normalisation, and the
four output renderers (POSIX, GNU, delimited, human-pretty).

Conventions of the embedding:
* Rust `u64` values are modelled as `Nat`; Rust `i64`/`i32` (`c_long`,
  `time_t`, `suseconds_t`, exit codes) as `Int`.  Rust `/` and `%` on
  signed integers truncate toward zero, so they are modelled with
  `Int.tdiv` / `Int.tmod`; on unsigned values `Nat` division/modulo agree
  with Rust.
* ANSI colour escapes produced by `ansi_term` (`Colour::…​.paint`) carry no
  information; the embedding renders the visible text only.
* The `f64` computations (`{:.1}` / `{:.0}` formatting in the memory
  renderer, the `%CPU` ratio in the GNU renderer) are modelled as exact
  fractions — integer numerator/denominator with round-half-to-even for
  the formatter, `ℚ` for the `%CPU` value — which coincide with the `f64`
  computation at every input these theorems evaluate (all of them are
  exactly representable in `f64`).
-/

/-- Zero-pad a natural number on the left to `w` digits
(Rust `format!("{:0w}", n)`). -/
def padZero (w : Nat) (n : Nat) : String :=
  let s := toString n
  if s.length ≥ w then s else String.mk (List.replicate (w - s.length) '0') ++ s

/-- Space-pad a signed number on the left to width `w`
(Rust `format!("{:>w}", n)`). -/
def padSp (w : Nat) (n : Int) : String :=
  let s := toString n
  if s.length ≥ w then s else String.mk (List.replicate (w - s.length) ' ') ++ s

/-- The `timeval` pair (`tv_sec` seconds, `tv_usec` microseconds) of
`getrusage`'s `ru_utime` / `ru_stime` fields. -/
structure Timeval where
  tv_sec : Int
  tv_usec : Int
deriving DecidableEq, Repr

/-- The fields of `rusage` the program reads (main.rs lines 111–134,
242–246, 264–275). -/
structure Rusage where
  ru_utime : Timeval
  ru_stime : Timeval
  ru_maxrss : Int
  ru_minflt : Int
  ru_majflt : Int
  ru_inblock : Int
  ru_oublock : Int
deriving DecidableEq, Repr

/-- Nanosecond normalisation of a `timeval`
(main.rs lines 200–203: `tv_sec * 1_000_000_000 + tv_usec * 1_000`). -/
def timevalNs (t : Timeval) : Int :=
  t.tv_sec * 1000000000 + t.tv_usec * 1000

/-- The canonical measurement record consumed by the renderers: nanosecond
durations plus the raw `rusage` counters.  `realSec`/`realNs` are the
whole-second part and sub-second nanosecond remainder of the wall-clock
duration, exactly as the program keeps them (main.rs lines 190–198, 204). -/
structure Measurement where
  realSec : Int
  realNs : Nat
  usage : Rusage
deriving DecidableEq, Repr

/-- Total real time in nanoseconds, `rtime_ns` of main.rs line 204. -/
def Measurement.rtimeNs (m : Measurement) : Nat :=
  m.realSec.toNat * 1000000000 + m.realNs

/-- `utime_ns` of main.rs lines 200–201 (user CPU time in ns). -/
def Measurement.utimeNs (m : Measurement) : Nat :=
  (timevalNs m.usage.ru_utime).toNat

/-- `stime_ns` of main.rs lines 202–203 (system CPU time in ns). -/
def Measurement.stimeNs (m : Measurement) : Nat :=
  (timevalNs m.usage.ru_stime).toNat

/-! ## Launch classification and exit codes (main.rs lines 136–188, 376) -/

/-- The `std::io::ErrorKind` cases the spawn-error match distinguishes
(main.rs lines 150–159). -/
inductive SpawnErrorKind where
  | notFound
  | permissionDenied
  | otherKind
deriving DecidableEq, Repr

/-- Exit code chosen for a failed `Command::spawn`, from the error kind and
`raw_os_error()` (main.rs lines 147–167).  `NotFound` exits 127 and
`PermissionDenied` 126 before the raw errno is consulted; any other kind
falls through to the errno match: `Some(e)` with `0 < e ≤ 125` exits 125,
everything else exits 1. -/
def spawnFailExit (k : SpawnErrorKind) (raw : Option Int) : Int :=
  match k with
  | .notFound => 127
  | .permissionDenied => 126
  | .otherKind =>
      match raw with
      | some e => if 0 < e ∧ e ≤ 125 then 125 else 1
      | none => 1

/-- Outcome of `child.wait()` (main.rs lines 170–183). -/
inductive WaitOutcome where
  | exited (code : Int)
  | signaled
  | waitError
deriving DecidableEq, Repr

/-- The `exit` variable of main.rs lines 172–183: the child's own exit code
when it exited normally, 1 when it was terminated by a signal (no code
available), 1 when `wait` itself failed. -/
def waitExit : WaitOutcome → Int
  | .exited code => code
  | .signaled => 1
  | .waitError => 1

/-- Output mode selected by the flags (mutually exclusive;
main.rs lines 213, 221, 250; default is the human-pretty renderer). -/
inductive Mode where
  | posix
  | gnu
  | delimited (d : Char)
  | human
deriving DecidableEq, Repr

/-- One run of the program, abstracted over the environment's responses:
either no command was given, or the spawn failed with a classified error,
or the child was waited on (`rusageOk` records whether the `getrusage`
call at main.rs lines 185–188 returned 0). -/
inductive RunOutcome where
  | noCommand
  | spawnFailed (k : SpawnErrorKind) (raw : Option Int)
  | ran (w : WaitOutcome) (rusageOk : Bool) (mode : Mode)
deriving DecidableEq, Repr

/-- The process's own exit code for each run outcome
(main.rs lines 139, 147–167, 187, 220, 249, 277, 376: every renderer
branch ends in `process::exit(exit)`, and a failed `getrusage` exits with
the same `exit` value before any rendering). -/
def tallyExit : RunOutcome → Int
  | .noCommand => 127
  | .spawnFailed k raw => spawnFailExit k raw
  | .ran w _ _ => waitExit w

/-- Whether a report is rendered: only when the child was actually waited
on and `getrusage` succeeded does control reach a renderer
(main.rs lines 185–188 exit before the format branches otherwise). -/
def reportPrinted : RunOutcome → Bool
  | .noCommand => false
  | .spawnFailed _ _ => false
  | .ran _ rusageOk _ => rusageOk

/-- Whether the long help text is printed: only on the empty-command path
(main.rs lines 137–140). -/
def helpPrinted : RunOutcome → Bool
  | .noCommand => true
  | _ => false

/-! ## Delimiter validator (main.rs lines 71–88) -/

/-- Rust `char::is_ascii`: code point at most `0x7F`. -/
def charIsAscii (c : Char) : Bool := c.toNat ≤ 127

/-- The `--delimited` argument validator (main.rs lines 71–88): an empty
string, a multi-character string, and a non-ASCII single character are
each rejected with their own message; a single ASCII character is
accepted. -/
def validateDelimiter (v : List Char) : Except String Unit :=
  match v with
  | [] => .error "no delimiter given"
  | [c] =>
      if charIsAscii c then .ok ()
      else .error "only ASCII delimiters are supported"
  | _ :: _ :: _ => .error "only single-character delimiters are supported"

/-! ## POSIX renderer (main.rs lines 205–220) -/

/-- The integer-second and millisecond-fraction parts of a nanosecond
count, as computed inside `ns_to_ms_frac`
(main.rs lines 205–211: `ns / 1_000_000_000` and
`(ns % 1_000_000_000) / 1_000_000`). -/
def posixParts (ns : Nat) : Nat × Nat :=
  (ns / 1000000000, ns % 1000000000 / 1000000)

/-- `ns_to_ms_frac` (main.rs lines 205–211): renders nanoseconds as
decimal seconds with exactly three fractional digits,
`format!("{}.{:03}", …)`. -/
def ns_to_ms_frac (ns : Nat) : String :=
  toString (posixParts ns).1 ++ "." ++ padZero 3 (posixParts ns).2

/-- Nanosecond value denoted by the decimal string `ns_to_ms_frac` emits:
the string always has exactly three fractional digits, so it reads as
`sec * 10^9 + frac * 10^6` nanoseconds. -/
def posixEmittedNs (ns : Nat) : Nat :=
  (posixParts ns).1 * 1000000000 + (posixParts ns).2 * 1000000

/-- The three POSIX-mode lines (main.rs lines 214–219). -/
def posixReport (m : Measurement) : List String :=
  [ "real " ++ ns_to_ms_frac m.rtimeNs
  , "user " ++ ns_to_ms_frac m.utimeNs
  , "sys " ++ ns_to_ms_frac m.stimeNs ]

/-! ## GNU renderer's %CPU field (main.rs lines 221–249) -/

/-- The value printed in the `%CPU` position of the GNU-format line
(main.rs line 239): `(utime_ns + stime_ns) as f64 / rtime_ns as f64`,
with NO multiplication by 100.  Modelled over `ℚ` (exact for the inputs
evaluated below); note Lean's `ℚ` division by zero yields 0, whereas the
`f64` division yields `inf`/`NaN` — the program has no branch guarding
`rtime_ns = 0`. -/
def gnuCpuField (utimeNs stimeNs rtimeNs : Nat) : ℚ :=
  ((utimeNs : ℚ) + stimeNs) / rtimeNs

/-- Modelled from the spec: "`%P` computed as `(user+system)/real * 100`".
This is the formula the spec claims the GNU renderer uses, for comparison
with `gnuCpuField` above, which is what the source computes. -/
def specCpuPercent (utimeNs stimeNs rtimeNs : Nat) : ℚ :=
  ((utimeNs : ℚ) + stimeNs) / rtimeNs * 100

/-! ## Delimited renderer (main.rs lines 250–277) -/

/-- Whether the `csv` writer must quote a field: the default `Necessary`
quote style quotes a field containing the delimiter, a double quote, or a
record-terminator byte. -/
def csvNeedsQuote (delim : Char) (s : String) : Bool :=
  s.toList.any fun c => c = delim ∨ c = '"' ∨ c = '\n' ∨ c = '\r'

/-- A single field as the `csv` writer emits it: quoted with inner double
quotes doubled when necessary, verbatim otherwise. -/
def csvField (delim : Char) (s : String) : String :=
  if csvNeedsQuote delim s then
    "\"" ++ String.mk (s.toList.flatMap fun c =>
      if c = '"' then ['"', '"'] else [c]) ++ "\""
  else s

/-- One two-column record `name,value` as written by the
`write_field`/`write_record` pair (main.rs lines 264–275). -/
def csvRow (delim : Char) (name value : String) : String :=
  csvField delim name ++ String.singleton delim ++ csvField delim value

/-- The six (name, value) pairs of delimited mode, in source order
(main.rs lines 264–275): user, system, real (nanoseconds), peak_mem
(kilobytes), major_faults, minor_faults. -/
def delimitedPairs (m : Measurement) : List (String × String) :=
  [ ("user", toString m.utimeNs)
  , ("system", toString m.stimeNs)
  , ("real", toString m.rtimeNs)
  , ("peak_mem", toString m.usage.ru_maxrss)
  , ("major_faults", toString m.usage.ru_majflt)
  , ("minor_faults", toString m.usage.ru_minflt) ]

/-- The lines of the delimited report (one record per line). -/
def delimitedLines (delim : Char) (m : Measurement) : List String :=
  (delimitedPairs m).map fun p => csvRow delim p.1 p.2

/-! ## Human-pretty renderer (main.rs lines 280–375) -/

/-- `has_h` (main.rs lines 285–286): an hours column is shown when the
real time reaches a whole hour or either CPU time exceeds 3600 s. -/
def hasH (realSec : Int) (u s : Timeval) : Bool :=
  realSec.tdiv 3600 > 0 ∨ u.tv_sec > 3600 ∨ s.tv_sec > 3600

/-- `has_m` (main.rs lines 287–288). -/
def hasM (realSec : Int) (u s : Timeval) : Bool :=
  hasH realSec u s ∨ realSec.tdiv 60 > 0 ∨ u.tv_sec > 60 ∨ s.tv_sec > 60

/-- `has_usec` (main.rs line 289): a microseconds column is shown when the
user or system time has a non-zero sub-millisecond remainder.  The real
time's remainder is not consulted. -/
def hasUsec (u s : Timeval) : Bool :=
  u.tv_usec.tmod 1000 > 0 ∨ s.tv_usec.tmod 1000 > 0

/-- `has_msec` (main.rs line 290): a milliseconds column is shown when a
microseconds column is, or when the user or system time's microsecond
field exceeds 1000.  The real time's remainder is not consulted. -/
def hasMsec (u s : Timeval) : Bool :=
  hasUsec u s ∨ u.tv_usec > 1000 ∨ s.tv_usec > 1000

/-- One pushed piece of a pretty duration row: the formatted value text
and the unit label (`ansi_term` colouring of the unit dropped). -/
structure Piece where
  text : String
  unit : String
deriving DecidableEq, Repr

/-- `pretty_seconds` (main.rs lines 292–304): hours (if `has_h`), minutes
(if `has_h || has_m`), seconds, each `{:>2}`-padded. -/
def prettySeconds (hH hM : Bool) (s : Int) : List Piece :=
  (if hH then [⟨padSp 2 (s.tdiv 3600), "h "⟩] else []) ++
  (if hH ∨ hM then [⟨padSp 2 ((s.tmod 3600).tdiv 60), "m "⟩] else []) ++
  [⟨padSp 2 ((s.tmod 3600).tmod 60), "s"⟩]

/-- `pretty_time` (main.rs lines 305–318), used for the user and system
rows: after the seconds, a `{:>3}`-padded milliseconds piece
(`usec / 1000`) when `has_msec`, then `usec` is reduced modulo 1000 and a
microseconds piece when `has_usec`. -/
def prettyTime (hH hM hMsec hUsec : Bool) (t : Timeval) : List Piece :=
  prettySeconds hH hM t.tv_sec ++
  (if hMsec then [⟨padSp 3 (t.tv_usec.tdiv 1000), "ms"⟩] else []) ++
  (if hUsec then [⟨padSp 3 (t.tv_usec.tmod 1000), "µs"⟩] else [])

/-- `pretty_time2` (main.rs lines 319–336), used for the real-time row:
after the seconds, a milliseconds piece `ns / 1_000_000` when `has_msec`,
then — without reducing `ns` — a microseconds piece `ns / 1_000` when
`has_usec`; finally `ns` is reduced modulo 1000 and a nanoseconds piece is
pushed when that remainder is non-zero. -/
def prettyTime2 (hH hM hMsec hUsec : Bool) (realSec : Int) (ns : Nat) :
    List Piece :=
  prettySeconds hH hM realSec ++
  (if hMsec then [⟨padSp 3 (ns / 1000000), "ms"⟩] else []) ++
  (if hUsec then [⟨padSp 3 (ns / 1000), "µs"⟩] else []) ++
  (if ns % 1000 ≠ 0 then [⟨padSp 3 (ns % 1000), "ns"⟩] else [])

/-- Whether a rendered duration row carries a piece with the given unit
label. -/
def rowHasUnit (row : List Piece) (u : String) : Bool :=
  row.any fun p => p.unit = u

/-- A duration (given as total nanoseconds) needs microsecond precision
when its value is not a whole number of milliseconds. -/
def needsUsecPrecision (totalNs : Nat) : Bool :=
  totalNs % 1000000 ≠ 0

/-! ## Memory formatter (main.rs lines 337–347) -/

/-- Round-half-to-even of the exact fraction `num / den` (`den > 0`) to an
integer, as `f64`→decimal formatting does. -/
def roundHalfEven (num den : Int) : Int :=
  let q := num.fdiv den
  let r := num - den * q
  if 2 * r < den then q
  else if den < 2 * r then q + 1
  else if 2 ∣ q then q else q + 1

/-- Rust `format!("{:.d}", x)` applied to the exact fraction `num / den`
(`den > 0`): fixed-point rendering with `d` fractional digits, rounding
half to even. -/
def fmtFixed (d : Nat) (num den : Int) : String :=
  let n := roundHalfEven (num * 10 ^ d) den
  let sign := if n < 0 then "-" else ""
  let a := n.natAbs
  if d = 0 then sign ++ toString a
  else sign ++ toString (a / 10 ^ d) ++ "." ++ padZero d (a % 10 ^ d)

/-- The five branches of `pretty_mem`'s strict-greater-than chain
(main.rs lines 337–347): GB with 0 decimals above 10·1024² kB, GB with 1
decimal above 1024² kB, MB with 0 decimals above 10·1024 kB, MB with 1
decimal above 1024 kB, plain kB otherwise. -/
inductive MemTier where
  | gb0
  | gb1
  | mb0
  | mb1
  | kb
deriving DecidableEq, Repr

/-- Branch selection of `pretty_mem` (main.rs lines 337–347). -/
def memTier (ks : Int) : MemTier :=
  if ks > 10 * 1024 * 1024 then .gb0
  else if ks > 1024 * 1024 then .gb1
  else if ks > 10 * 1024 then .mb0
  else if ks > 1024 then .mb1
  else .kb

/-- `pretty_mem` (main.rs lines 337–347): value text plus unit, colouring
dropped.  The `f64` divisions `ks as f64 / 1024 (/ 1024)` are modelled as
the exact fractions `ks / 1024` and `ks / 1024²`, which agree with the
`f64` computation at every input evaluated in the theorems below. -/
def prettyMem (ks : Int) : String :=
  match memTier ks with
  | .gb0 => fmtFixed 0 ks (1024 * 1024) ++ " " ++ "GB"
  | .gb1 => fmtFixed 1 ks (1024 * 1024) ++ " " ++ "GB"
  | .mb0 => fmtFixed 0 ks 1024 ++ " " ++ "MB"
  | .mb1 => fmtFixed 1 ks 1024 ++ " " ++ "MB"
  | .kb => toString ks ++ " " ++ "kB"

/-! ## Theorems -/

/-- C1: the claim says a launch failure with OS errno `n`, `1 ≤ n ≤ 125`,
neither NotFound nor PermissionDenied, exits with code `n` itself.  The
source (main.rs lines 160–165) instead exits with the constant 125 for
every errno in that range: at errno 5 the program exits 125, not 5.  (The
range guard `e > 0 && e <= 125` only makes sense for passing `e` through,
so the constant is a slip in the code; the spec states the evident
intent.) -/
theorem C1_errno_not_passed_through :
    spawnFailExit SpawnErrorKind.otherKind (some 5) = 125 ∧
    spawnFailExit SpawnErrorKind.otherKind (some 7) = 125 ∧
    (125 : Int) ≠ 5 := by decide

/-- C2 counterexample: POSIX mode does not round-trip to within 1 ns.  For
the nanosecond value 1_500_000 (1.5 ms) the emitted string is `"0.001"`,
which reads back as 1_000_000 ns — an error of 500_000 ns.  Moreover the
fractional part is not minimal: 100_000_000 ns (0.1 s) is emitted as
`"0.100"`, with trailing zeros. -/
theorem C2_posix_roundtrip_counterexample :
    ns_to_ms_frac 1500000 = "0.001" ∧
    posixEmittedNs 1500000 = 1000000 ∧
    1500000 - posixEmittedNs 1500000 = 500000 ∧
    ns_to_ms_frac 100000000 = "0.100" := by decide

/-- C2 amended: `ns_to_ms_frac` always emits exactly three fractional
digits (the fraction is `(ns % 10^9) / 10^6 < 1000`, zero-padded to width
3), the value truncated to whole milliseconds: the emitted decimal string
reads back as `ns / 10^6 * 10^6` nanoseconds, which is within 1_000_000 ns
(one millisecond) of the original value. -/
theorem C2_posix_truncates_to_milliseconds (ns : Nat) :
    (posixParts ns).2 < 1000 ∧
    posixEmittedNs ns = ns / 1000000 * 1000000 ∧
    ns - posixEmittedNs ns < 1000000 := by
  unfold posixEmittedNs posixParts
  refine ⟨?_, ?_, ?_⟩ <;> omega

/-- C2 amended, witness: evaluation at `ns = 1_234_567_891`. -/
theorem C2_posix_truncates_to_milliseconds_witness :
    (posixParts 1234567891).2 < 1000 ∧
    posixEmittedNs 1234567891 = 1234000000 ∧
    1234567891 - posixEmittedNs 1234567891 < 1000000 := by
  have h := C2_posix_truncates_to_milliseconds 1234567891
  exact ⟨h.1, by decide, h.2.2⟩

/-- C4: the exit code is a total function of the run outcome: 127 for a
missing command (after printing help) and for NotFound; 126 for
PermissionDenied; 1 for an unclassifiable launch failure (no raw errno, or
an errno outside (0, 125]); the child's own code on a normal exit; and 1
when the child was terminated by a signal. -/
theorem C4_exit_code_total (raw raw2 : Option Int) (e code : Int)
    (ok ok2 : Bool) (mode mode2 : Mode) (h : ¬(0 < e ∧ e ≤ 125)) :
    tallyExit RunOutcome.noCommand = 127 ∧
    helpPrinted RunOutcome.noCommand = true ∧
    tallyExit (RunOutcome.spawnFailed SpawnErrorKind.notFound raw) = 127 ∧
    tallyExit (RunOutcome.spawnFailed SpawnErrorKind.permissionDenied raw2) = 126 ∧
    tallyExit (RunOutcome.spawnFailed SpawnErrorKind.otherKind (some e)) = 1 ∧
    tallyExit (RunOutcome.spawnFailed SpawnErrorKind.otherKind none) = 1 ∧
    tallyExit (RunOutcome.ran (WaitOutcome.exited code) ok mode) = code ∧
    tallyExit (RunOutcome.ran WaitOutcome.signaled ok2 mode2) = 1 := by
  have h5 : spawnFailExit SpawnErrorKind.otherKind (some e) = 1 := by
    simp [spawnFailExit, h]
  exact ⟨rfl, rfl, rfl, rfl, h5, rfl, rfl, rfl⟩

/-- C4 witness: evaluation at errno 200 (out of the pass-through range)
and child exit code 42. -/
theorem C4_exit_code_total_witness :
    ¬((0:Int) < 200 ∧ (200:Int) ≤ 125) ∧
    tallyExit (RunOutcome.spawnFailed SpawnErrorKind.otherKind (some 200)) = 1 ∧
    tallyExit (RunOutcome.ran (WaitOutcome.exited 42) true Mode.posix) = 42 :=
  ⟨by decide,
   (C4_exit_code_total none (some 13) 200 42 true false Mode.posix Mode.human
      (by decide)).2.2.2.2.1,
   (C4_exit_code_total none (some 13) 200 42 true false Mode.posix Mode.human
      (by decide)).2.2.2.2.2.2.1⟩

/-- C5: when `getrusage` fails after a successful wait, the program exits
with the same `exit` value it computed from the wait outcome — the child's
own exit code when known, otherwise 1 — and no report is printed in any
output mode (the renderer branches are never reached). -/
theorem C5_sampler_failed_propagates_exit (w : WaitOutcome) (mode : Mode)
    (code : Int) :
    tallyExit (RunOutcome.ran w false mode) = waitExit w ∧
    reportPrinted (RunOutcome.ran w false mode) = false ∧
    waitExit (WaitOutcome.exited code) = code ∧
    waitExit WaitOutcome.signaled = 1 ∧
    waitExit WaitOutcome.waitError = 1 :=
  ⟨rfl, rfl, rfl, rfl, rfl⟩

/-- Whether the delimiter validator accepted its argument (clap then
proceeds to launch the child; a validation error aborts beforehand). -/
def validatorAccepts (v : List Char) : Bool :=
  match validateDelimiter v with
  | .ok _ => true
  | .error _ => false

/-- C7: the delimiter validator accepts a string exactly when it decodes
to a single ASCII character; the empty string, a multi-character string,
and a non-ASCII single character are each rejected with their own
descriptive error message. -/
theorem C7_validator_single_ascii (v : List Char) :
    (validatorAccepts v = true ↔ ∃ c, v = [c] ∧ charIsAscii c = true) ∧
    validateDelimiter [] = Except.error "no delimiter given" ∧
    validateDelimiter ['a', 'b'] =
      Except.error "only single-character delimiters are supported" ∧
    validateDelimiter ['é'] =
      Except.error "only ASCII delimiters are supported" := by
  refine ⟨?_, rfl, rfl, rfl⟩
  match v with
  | [] => simp [validatorAccepts, validateDelimiter]
  | [c] =>
      by_cases h : charIsAscii c <;>
        simp [validatorAccepts, validateDelimiter, h]
  | c :: c' :: rest => simp [validatorAccepts, validateDelimiter]

/-- C6: for every measurement and any single-character separator, the
delimited report is exactly six records in the fixed order user, system,
real (nanoseconds), peak_mem (kilobytes), major_faults, minor_faults —
no row is omitted whatever the values — and for separator `;` with
user = 1_000_000 ns, system = 2_000_000 ns, real = 5_000_000 ns,
max_rss = 4096 kB, 1 major and 9 minor faults, the six lines are exactly
the ones the claim lists. -/
theorem C6_delimited_six_rows :
    (∀ (m : Measurement) (d : Char),
      (delimitedLines d m).length = 6 ∧
      (delimitedPairs m).map Prod.fst =
        ["user", "system", "real", "peak_mem", "major_faults",
         "minor_faults"] ∧
      (delimitedPairs m).map Prod.snd =
        [toString m.utimeNs, toString m.stimeNs, toString m.rtimeNs,
         toString m.usage.ru_maxrss, toString m.usage.ru_majflt,
         toString m.usage.ru_minflt] ∧
      delimitedLines d m = (delimitedPairs m).map fun p => csvRow d p.1 p.2) ∧
    delimitedLines ';' ⟨0, 5000000, ⟨⟨0, 1000⟩, ⟨0, 2000⟩, 4096, 9, 1, 0, 0⟩⟩ =
      ["user;1000000", "system;2000000", "real;5000000", "peak_mem;4096",
       "major_faults;1", "minor_faults;9"] := by
  exact ⟨fun m d => ⟨rfl, rfl, rfl, rfl⟩, by decide⟩

/-- C9: `pretty_mem` renders 0 kB as `"0 kB"`, 2048 kB as `"2.0 MB"` (MB
range, one decimal), 11_000_000 kB as `"10 GB"` (GB range, no decimals),
and its unit/precision branches switch exactly at the strict thresholds
1024, 10·1024, 1024², and 10·1024² kB. -/
theorem C9_pretty_mem_thresholds :
    (∀ ks : Int,
      (memTier ks = MemTier.kb ↔ ks ≤ 1024) ∧
      (memTier ks = MemTier.mb1 ↔ 1024 < ks ∧ ks ≤ 10 * 1024) ∧
      (memTier ks = MemTier.mb0 ↔ 10 * 1024 < ks ∧ ks ≤ 1024 * 1024) ∧
      (memTier ks = MemTier.gb1 ↔ 1024 * 1024 < ks ∧ ks ≤ 10 * 1024 * 1024) ∧
      (memTier ks = MemTier.gb0 ↔ 10 * 1024 * 1024 < ks)) ∧
    prettyMem 0 = "0 kB" ∧
    prettyMem 2048 = "2.0 MB" ∧
    prettyMem 11000000 = "10 GB" := by
  refine ⟨fun ks => ?_, by decide, by decide, by decide⟩
  unfold memTier
  split_ifs with h1 h2 h3 h4 <;>
    refine ⟨?_, ?_, ?_, ?_, ?_⟩ <;> simp <;> omega

/-- C3: the value the GNU renderer prints in the `%CPU` position is
`(utime_ns + stime_ns) / rtime_ns` with no factor of 100 (main.rs line
239): with user = system = 0.5 s and real = 1 s the printed value is 1,
not the 100 percent the claim's formula gives.  (There is also no branch
guarding `rtime_ns = 0`: the `f64` division simply produces `inf`/`NaN`;
the `ℚ` model cannot express that value, so the guard clause is refuted by
the formula discrepancy alone.) -/
theorem C3_gnu_cpu_missing_factor_100 :
    gnuCpuField 500000000 500000000 1000000000 = 1 ∧
    specCpuPercent 500000000 500000000 1000000000 = 100 ∧
    gnuCpuField 500000000 500000000 1000000000 ≠
      specCpuPercent 500000000 500000000 1000000000 := by
  refine ⟨?_, ?_, ?_⟩ <;> norm_num [gnuCpuField, specCpuPercent]

/-- C8 counterexample: a real time of 500_000 ns (0.5 ms) requires
microsecond precision, yet with whole-millisecond-free user and system
times the precision flags stay off and no row — not even the real-time
row — is rendered with a milliseconds field: the tier decision consults
only the user and system times. -/
theorem C8_counterexample_real_time_ignored :
    needsUsecPrecision
      (Measurement.rtimeNs ⟨0, 500000, ⟨⟨0, 0⟩, ⟨0, 0⟩, 0, 0, 0, 0, 0⟩⟩) =
      true ∧
    hasMsec ⟨0, 0⟩ ⟨0, 0⟩ = false ∧
    hasUsec ⟨0, 0⟩ ⟨0, 0⟩ = false ∧
    rowHasUnit (prettyTime2 (hasH 0 ⟨0, 0⟩ ⟨0, 0⟩) (hasM 0 ⟨0, 0⟩ ⟨0, 0⟩)
      (hasMsec ⟨0, 0⟩ ⟨0, 0⟩) (hasUsec ⟨0, 0⟩ ⟨0, 0⟩) 0 500000) "ms" = false ∧
    rowHasUnit (prettyTime (hasH 0 ⟨0, 0⟩ ⟨0, 0⟩) (hasM 0 ⟨0, 0⟩ ⟨0, 0⟩)
      (hasMsec ⟨0, 0⟩ ⟨0, 0⟩) (hasUsec ⟨0, 0⟩ ⟨0, 0⟩) ⟨0, 0⟩) "ms" = false := by
  decide

/-- In `pretty_time2` a nanoseconds piece appears only when the final
`ns % 1000` remainder is non-zero. -/
theorem prettyTime2_no_ns_piece (b1 b2 b3 b4 : Bool) (realSec : Int)
    (ns : Nat) (h : ns % 1000 = 0) :
    rowHasUnit (prettyTime2 b1 b2 b3 b4 realSec ns) "ns" = false := by
  cases b1 <;> cases b2 <;> cases b3 <;> cases b4 <;>
    simp [prettyTime2, prettySeconds, rowHasUnit, h]

/-- C8 amended: the sub-second precision tiers are driven by the user and
system times only.  If the user or system time requires microsecond
precision (`has_usec`), the millisecond tier is also on and every duration
row — user/system (`pretty_time`) and real (`pretty_time2`) — carries both
an `ms` and a `µs` field; the millisecond tier is on only when the user or
system microsecond field is non-zero, the microsecond tier only when one
of them has a non-zero sub-millisecond remainder, and the real row's
nanoseconds field appears only when its nanosecond remainder is non-zero.
The real time's own sub-second remainder never influences the shared
tier. -/
theorem C8_precision_tier_coupling (u s t : Timeval) (hH hM : Bool)
    (realSec : Int) (ns : Nat) :
    (hasUsec u s = true → hasMsec u s = true) ∧
    (hasMsec u s = true →
      rowHasUnit (prettyTime hH hM (hasMsec u s) (hasUsec u s) t) "ms" =
        true ∧
      rowHasUnit (prettyTime2 hH hM (hasMsec u s) (hasUsec u s) realSec ns)
        "ms" = true) ∧
    (hasUsec u s = true →
      rowHasUnit (prettyTime hH hM (hasMsec u s) (hasUsec u s) t) "µs" =
        true ∧
      rowHasUnit (prettyTime2 hH hM (hasMsec u s) (hasUsec u s) realSec ns)
        "µs" = true) ∧
    (hasMsec u s = true → u.tv_usec ≠ 0 ∨ s.tv_usec ≠ 0) ∧
    (hasUsec u s = true →
      u.tv_usec.tmod 1000 ≠ 0 ∨ s.tv_usec.tmod 1000 ≠ 0) ∧
    (rowHasUnit (prettyTime2 hH hM (hasMsec u s) (hasUsec u s) realSec ns)
        "ns" = true → ns % 1000 ≠ 0) := by
  refine ⟨?_, ?_, ?_, ?_, ?_, ?_⟩
  · intro h
    simp [hasMsec, h]
  · intro h
    rw [h]
    constructor <;>
      simp [prettyTime, prettyTime2, rowHasUnit, List.any_append]
  · intro h
    have hm : hasMsec u s = true := by simp [hasMsec, h]
    rw [h, hm]
    constructor <;>
      simp [prettyTime, prettyTime2, rowHasUnit, List.any_append]
  · intro h
    simp only [hasMsec, hasUsec, Bool.decide_or, Bool.or_eq_true,
      decide_eq_true_eq] at h
    rcases h with ((h1 | h2) | h3 | h4)
    · left
      intro h0
      rw [h0] at h1
      exact absurd h1 (by decide)
    · right
      intro h0
      rw [h0] at h2
      exact absurd h2 (by decide)
    · left; omega
    · right; omega
  · intro h
    simp only [hasUsec, Bool.decide_or, Bool.or_eq_true,
      decide_eq_true_eq] at h
    rcases h with h1 | h2
    · left; omega
    · right; omega
  · intro hrow
    intro h0
    have := prettyTime2_no_ns_piece hH hM (hasMsec u s) (hasUsec u s)
      realSec ns h0
    simp [this] at hrow

/-- C8 amended, witness: user time 1500 µs (so `has_usec` holds) with
zero system time; all rows carry `ms` and `µs` fields. -/
theorem C8_precision_tier_coupling_witness :
    hasUsec ⟨0, 1500⟩ ⟨0, 0⟩ = true ∧
    hasMsec ⟨0, 1500⟩ ⟨0, 0⟩ = true ∧
    rowHasUnit (prettyTime false false (hasMsec ⟨0, 1500⟩ ⟨0, 0⟩)
      (hasUsec ⟨0, 1500⟩ ⟨0, 0⟩) ⟨0, 2500⟩) "ms" = true ∧
    rowHasUnit (prettyTime2 false false (hasMsec ⟨0, 1500⟩ ⟨0, 0⟩)
      (hasUsec ⟨0, 1500⟩ ⟨0, 0⟩) 0 1234567) "µs" = true := by
  have h := C8_precision_tier_coupling ⟨0, 1500⟩ ⟨0, 0⟩ ⟨0, 2500⟩ false false
    0 1234567
  exact ⟨by decide, h.1 (by decide), (h.2.1 (h.1 (by decide))).1,
    (h.2.2.1 (by decide)).2⟩

/-- C10: when both sub-second tiers are shown, the real-time row's
microseconds field is the whole sub-second remainder divided by 1000 —
the millisecond part is not removed first — so its leading digits repeat
the milliseconds field (`ns / 1000 = (ns / 10^6)·1000 + (ns / 1000) %
1000`) and the printed number reaches 1000 or more as soon as the
remainder holds a full millisecond; the user and system rows instead
reduce their microseconds modulo 1000, keeping the field below 1000. -/
theorem C10_real_row_usec_not_reduced (hH hM : Bool) (t : Timeval)
    (realSec : Int) (ns : Nat) (hns : 1000000 ≤ ns) (ht : 0 ≤ t.tv_usec) :
    Piece.mk (padSp 3 (ns / 1000)) "µs" ∈
      prettyTime2 hH hM true true realSec ns ∧
    Piece.mk (padSp 3 (ns / 1000000)) "ms" ∈
      prettyTime2 hH hM true true realSec ns ∧
    1000 ≤ ns / 1000 ∧
    ns / 1000 = ns / 1000000 * 1000 + ns / 1000 % 1000 ∧
    Piece.mk (padSp 3 (t.tv_usec.tmod 1000)) "µs" ∈
      prettyTime hH hM true true t ∧
    t.tv_usec.tmod 1000 < 1000 := by
  have hdd : ns / 1000 / 1000 = ns / 1000000 := by
    rw [Nat.div_div_eq_div_mul]
  refine ⟨?_, ?_, ?_, ?_, ?_, ?_⟩
  · simp [prettyTime2, List.mem_append]
  · simp [prettyTime2, List.mem_append]
  · omega
  · rw [← hdd, Nat.mul_comm (ns / 1000 / 1000) 1000]
    exact (Nat.div_add_mod (ns / 1000) 1000).symm
  · simp [prettyTime, List.mem_append]
  · rw [Int.tmod_eq_emod ht (by norm_num)]
    exact Int.emod_lt_of_pos _ (by norm_num)

/-- C10 witness: real remainder 1_234_567 ns gives a real-row µs field of
1234 (≥ 1000, repeating the 1 ms already shown); a user time with
`tv_usec = 2500` gives a user-row µs field of 500. -/
theorem C10_real_row_usec_not_reduced_witness :
    (1000000 ≤ 1234567 ∧ (0:Int) ≤ 2500) ∧
    Piece.mk (padSp 3 (1234567 / 1000)) "µs" ∈
      prettyTime2 false false true true 0 1234567 ∧
    1000 ≤ 1234567 / 1000 ∧
    Piece.mk (padSp 3 ((2500:Int).tmod 1000)) "µs" ∈
      prettyTime false false true true ⟨0, 2500⟩ := by
  have h := C10_real_row_usec_not_reduced false false ⟨0, 2500⟩ 0 1234567
    (by decide) (by decide)
  exact ⟨⟨by decide, by decide⟩, h.1, h.2.2.1, h.2.2.2.2.1⟩
